import Mathlib

/-!
Verification development for the EZPostgres central-database service
(`scripts/initialize-central-db.py`, `scripts/manage-central.py`).

The embedding models the catalog tables (`meta.teams`, `meta.users`,
`meta.team_members`, `meta.tables`), the physical database objects
(schemas, tables, roles, grants), and the connection files written by
`create_user`, as explicit state.  The SQL functions installed by
`initialize-central-db.py` (`meta.is_admin`, `meta.get_user_teams`,
`meta.deploy_table`) and the admin operations of `manage-central.py`
(`create_team`, `create_user`, `remove_user`, `add_user_to_team`) become
state-transition functions.

Conventions:
* Machine timestamps (`CURRENT_TIMESTAMP`) are passed in as a `Nat`
  parameter `now`; `gen_salt('bf')` is passed in as a `salt` parameter.
* `crypt(pw, gen_salt('bf'))` is modelled by the constructor
  `StoredCred.bcrypt pw salt`: the stored value is a bcrypt digest,
  represented abstractly by its inputs.
* A raised database error aborts an operation; the returned state holds
  the effects performed before the failing statement (the admin scripts
  run with `autocommit = True`, so earlier statements are not rolled
  back; inside the single `deploy_table` statement the engine would roll
  back even these, so this model's failure states are conservative).
* Python's `str.lower()` is modelled for ASCII characters.
-/

namespace EZPostgres

/-- A row of `meta.teams`: `id SERIAL`, `name UNIQUE`, `schema_name UNIQUE`,
`created_at`. -/
structure TeamRow where
  id : Nat
  name : String
  schema_name : String
  created_at : Nat
deriving DecidableEq, Repr

/-- The stored form of a credential: `crypt(password, gen_salt('bf'))`,
a salted one-way bcrypt digest (represented abstractly by its inputs). -/
inductive StoredCred where
  | bcrypt (password : String) (salt : String)
deriving DecidableEq, Repr

/-- A row of `meta.users`: `id SERIAL`, `username UNIQUE`, `password_hash`,
`is_admin`, `created_at`. -/
structure UserRow where
  id : Nat
  username : String
  password_hash : StoredCred
  is_admin : Bool
  created_at : Nat
deriving DecidableEq, Repr

/-- A row of `meta.team_members`: `id SERIAL`, `user_id`, `team_id`,
`created_at`, with `UNIQUE(user_id, team_id)` and `ON DELETE CASCADE`
references to users and teams. -/
structure MemberRow where
  id : Nat
  user_id : Nat
  team_id : Nat
  created_at : Nat
deriving DecidableEq, Repr

/-- A row of `meta.tables`: `id SERIAL`, `team_id`, `table_name`,
`schema_name`, `created_by` (nullable reference to `meta.users`),
`created_at`, `updated_at`, with `UNIQUE(schema_name, table_name)`. -/
structure TableRow where
  id : Nat
  team_id : Nat
  table_name : String
  schema_name : String
  created_by : Option Nat
  created_at : Nat
  updated_at : Nat
deriving DecidableEq, Repr

/-- A database-level role (`pg_catalog.pg_roles`).  `password` is the
credential set by `CREATE USER ... WITH PASSWORD` (`none` for the group
roles created by `create_team`, which have no login credential). -/
structure RoleRow where
  name : String
  password : Option String
deriving DecidableEq, Repr

/-- A physical table inside a schema, with the caller-supplied
column-definition text. -/
structure PhysTable where
  schema_name : String
  table_name : String
  definition : String
deriving DecidableEq, Repr

/-- Database-level privilege grants issued by the scripts. -/
inductive Grant where
  /-- `GRANT <teamRole> TO <userRole>` (role membership). -/
  | roleMember (userRole : String) (teamRole : String)
  /-- `GRANT USAGE ON SCHEMA <schema> TO <roleName>`. -/
  | schemaUsage (roleName : String) (schema : String)
  /-- `GRANT ALL PRIVILEGES ON <schema>.<table> TO <roleName>`. -/
  | tablePriv (roleName : String) (schema : String) (table : String)
  /-- `GRANT ALL PRIVILEGES ON DATABASE ... TO <roleName>`. -/
  | dbAll (roleName : String)
  /-- `GRANT ALL PRIVILEGES ON SCHEMA meta TO <roleName>`. -/
  | schemaAll (roleName : String) (schema : String)
  /-- `GRANT ALL PRIVILEGES ON ALL TABLES IN SCHEMA meta TO <roleName>`. -/
  | tablesAll (roleName : String) (schema : String)
  /-- `GRANT ALL PRIVILEGES ON ALL SEQUENCES IN SCHEMA meta TO <roleName>`. -/
  | seqAll (roleName : String) (schema : String)
deriving DecidableEq, Repr

/-- The grantee role of a grant (the role that `DROP OWNED BY` strips). -/
def Grant.grantee : Grant → String
  | .roleMember u _ => u
  | .schemaUsage r _ => r
  | .tablePriv r _ _ => r
  | .dbAll r => r
  | .schemaAll r _ => r
  | .tablesAll r _ => r
  | .seqAll r _ => r

/-- The whole system state: catalog rows, `SERIAL` counters, physical
schemas/tables, database roles and grants, and the `.env` connection
files written by `create_user` (filename paired with key/value lines). -/
structure DBState where
  teams : List TeamRow
  users : List UserRow
  team_members : List MemberRow
  tables : List TableRow
  nextTeamId : Nat
  nextUserId : Nat
  nextMemberId : Nat
  nextTableId : Nat
  schemas : List String
  phys : List PhysTable
  roles : List RoleRow
  grants : List Grant
  files : List (String × List (String × String))
deriving DecidableEq, Repr

/-- The empty database: no rows, `SERIAL` counters at 1, no objects. -/
def emptyState : DBState :=
  ⟨[], [], [], [], 1, 1, 1, 1, [], [], [], [], []⟩

/-- Python `name.lower().replace(' ', '_')` (ASCII lowering). -/
def slugify (name : String) : String :=
  String.mk (name.data.map (fun c => if c = ' ' then '_' else c.toLower))

/-- Schema identifier derived by `create_team`:
`f"team_{team_name.lower().replace(' ', '_')}"`. -/
def schemaNameOf (team_name : String) : String :=
  "team_" ++ slugify team_name

/-- Database role name derived for a user by `create_user` /
`remove_user` / `add_user_to_team`:
`f"user_{username.lower().replace(' ', '_')}"`. -/
def pgUsernameOf (username : String) : String :=
  "user_" ++ slugify username

/-- `SELECT ... FROM meta.users u WHERE u.username = <uname>` (at most
one row, by `UNIQUE(username)`). -/
def findUser (s : DBState) (uname : String) : Option UserRow :=
  s.users.find? (fun u => u.username == uname)

/-- `SELECT ... FROM meta.teams t WHERE t.id = <tid>`. -/
def findTeamById (s : DBState) (tid : Nat) : Option TeamRow :=
  s.teams.find? (fun t => t.id == tid)

/-- `SELECT id, schema_name FROM meta.teams WHERE name = <tname>`. -/
def findTeamByName (s : DBState) (tname : String) : Option TeamRow :=
  s.teams.find? (fun t => t.name == tname)

/-- `EXISTS (SELECT FROM pg_catalog.pg_roles WHERE rolname = <r>)`. -/
def roleExists (s : DBState) (r : String) : Bool :=
  s.roles.any (fun x => x.name == r)

/-- Whether a physical schema of this name exists. -/
def schemaExists (s : DBState) (n : String) : Bool :=
  s.schemas.any (fun x => x == n)

/-- Whether a physical table `<sch>.<tbl>` exists. -/
def physTableExists (s : DBState) (sch tbl : String) : Bool :=
  s.phys.any (fun p => p.schema_name == sch && p.table_name == tbl)

/-- `meta.is_admin()` (initialize-central-db.py, lines 81-92): look up
the row of `meta.users` whose `username` equals `current_user`; return
its `is_admin`, or `false` (`COALESCE(is_admin_user, false)`) when no
row matches. -/
def is_admin (s : DBState) (current_user : String) : Bool :=
  ((findUser s current_user).map (fun u => u.is_admin)).getD false

/-- `meta.get_user_teams()` (initialize-central-db.py, lines 95-119):
if `meta.is_admin()` then all `(id, schema_name)` of `meta.teams`;
otherwise the teams joined to `meta.team_members` on
`tm.team_id = t.id` with `tm.user_id` the id of the `meta.users` row
whose `username` equals `current_user` (no row: `user_id` is NULL and
the join is empty).  By `UNIQUE(user_id, team_id)` each team matches at
most one membership edge, so filtering the team list equals the SQL
inner join. -/
def get_user_teams (s : DBState) (current_user : String) : List (Nat × String) :=
  if is_admin s current_user then
    s.teams.map (fun t => (t.id, t.schema_name))
  else
    match findUser s current_user with
    | none => []
    | some u =>
        (s.teams.filter (fun t =>
          s.team_members.any (fun tm => tm.user_id == u.id && tm.team_id == t.id))).map
          (fun t => (t.id, t.schema_name))

/-- The outcome of `meta.deploy_table`. -/
inductive DeployOutcome where
  /-- The function returned `true`. -/
  | ok
  /-- `RAISE EXCEPTION 'User not authorized to deploy tables to this team'`. -/
  | unauthorized
  /-- `CREATE TABLE` failed: the relation already exists. -/
  | duplicateTable
  /-- The `SELECT t.schema_name` found no team row (unreachable when the
  authorization check passed, since authorized ids come from `meta.teams`). -/
  | teamVanished
  /-- The final `GRANT ... TO GROUP team_<schema>` failed: no such role. -/
  | grantRoleMissing
deriving DecidableEq, Repr

/-- The `INSERT INTO meta.tables ... ON CONFLICT (schema_name, table_name)
DO UPDATE SET updated_at = CURRENT_TIMESTAMP` upsert of `deploy_table`. -/
def upsertTableRecord (s : DBState) (now : Nat) (team_id : Nat)
    (tname sch : String) (created_by : Option Nat) : DBState :=
  if s.tables.any (fun r => r.schema_name == sch && r.table_name == tname) then
    { s with tables := s.tables.map (fun r =>
        if r.schema_name == sch && r.table_name == tname then
          { r with updated_at := now } else r) }
  else
    { s with
      tables := s.tables ++ [⟨s.nextTableId, team_id, tname, sch, created_by, now, now⟩],
      nextTableId := s.nextTableId + 1 }

/-- `meta.deploy_table(p_team_id, p_table_name, p_table_definition)`
(initialize-central-db.py, lines 122-175), executed as `current_user`:
1. authorization: `current_user`'s teams (via `meta.get_user_teams()`)
   must contain `p_team_id`, else raise;
2. resolve `user_id` and the team's `schema_name`;
3. `CREATE SCHEMA IF NOT EXISTS`;
4. `CREATE TABLE <schema>.<name> <definition>` (no `IF NOT EXISTS`:
   fails when the relation already exists);
5. upsert into `meta.tables`;
6. `GRANT ALL PRIVILEGES ON <schema>.<name> TO GROUP team_<schema>`.
On failure the paired state holds the effects before the failing step. -/
def deploy_table (s : DBState) (now : Nat) (current_user : String)
    (p_team_id : Nat) (p_table_name p_table_definition : String) :
    DeployOutcome × DBState :=
  if ¬ ((get_user_teams s current_user).any (fun p => p.1 == p_team_id)) then
    (.unauthorized, s)
  else
    let user_id := (findUser s current_user).map (fun u => u.id)
    match findTeamById s p_team_id with
    | none => (.teamVanished, s)
    | some t =>
      let sch := t.schema_name
      let s1 := if schemaExists s sch then s else { s with schemas := s.schemas ++ [sch] }
      if physTableExists s1 sch p_table_name then
        (.duplicateTable, s1)
      else
        let s2 := { s1 with phys := s1.phys ++ [⟨sch, p_table_name, p_table_definition⟩] }
        let s3 := upsertTableRecord s2 now p_team_id p_table_name sch user_id
        let grp := "team_" ++ sch
        if roleExists s3 grp then
          (.ok, { s3 with grants := s3.grants ++ [.tablePriv grp sch p_table_name] })
        else
          (.grantRoleMissing, s3)

/-- Column-definition text of `meta.teams` (initialize-central-db.py). -/
def ddlTeams : String :=
  "id SERIAL PRIMARY KEY, name VARCHAR(100) NOT NULL UNIQUE, schema_name VARCHAR(100) NOT NULL UNIQUE, created_at TIMESTAMP NOT NULL DEFAULT CURRENT_TIMESTAMP"

/-- Column-definition text of `meta.users`. -/
def ddlUsers : String :=
  "id SERIAL PRIMARY KEY, username VARCHAR(100) NOT NULL UNIQUE, password_hash VARCHAR(255) NOT NULL, is_admin BOOLEAN NOT NULL DEFAULT FALSE, created_at TIMESTAMP NOT NULL DEFAULT CURRENT_TIMESTAMP"

/-- Column-definition text of `meta.team_members`. -/
def ddlTeamMembers : String :=
  "id SERIAL PRIMARY KEY, user_id INTEGER NOT NULL REFERENCES meta.users(id) ON DELETE CASCADE, team_id INTEGER NOT NULL REFERENCES meta.teams(id) ON DELETE CASCADE, created_at TIMESTAMP NOT NULL DEFAULT CURRENT_TIMESTAMP, UNIQUE(user_id, team_id)"

/-- Column-definition text of `meta.tables`. -/
def ddlTables : String :=
  "id SERIAL PRIMARY KEY, team_id INTEGER NOT NULL REFERENCES meta.teams(id) ON DELETE CASCADE, table_name VARCHAR(100) NOT NULL, schema_name VARCHAR(100) NOT NULL, created_by INTEGER REFERENCES meta.users(id), created_at TIMESTAMP NOT NULL DEFAULT CURRENT_TIMESTAMP, updated_at TIMESTAMP NOT NULL DEFAULT CURRENT_TIMESTAMP, UNIQUE(schema_name, table_name)"

/-- `CREATE TABLE IF NOT EXISTS meta.<tbl>`. -/
def ensureMetaTable (s : DBState) (tbl ddl : String) : DBState :=
  if physTableExists s "meta" tbl then s
  else { s with phys := s.phys ++ [⟨"meta", tbl, ddl⟩] }

/-- First part of the `init_sql` block of `initialize_central_database()`
(initialize-central-db.py, lines 29-72): `CREATE SCHEMA IF NOT EXISTS
meta` and `CREATE TABLE IF NOT EXISTS` for the four catalog tables. -/
def init_schema_and_tables (s : DBState) : DBState :=
  let s1 := if schemaExists s "meta" then s else { s with schemas := s.schemas ++ ["meta"] }
  let s2 := ensureMetaTable s1 "teams" ddlTeams
  let s3 := ensureMetaTable s2 "users" ddlUsers
  let s4 := ensureMetaTable s3 "team_members" ddlTeamMembers
  ensureMetaTable s4 "tables" ddlTables

/-- `initialize_central_database()` (initialize-central-db.py,
lines 29-78 of the `init_sql` block): the schema/table creation above,
then `CREATE EXTENSION IF NOT EXISTS pgcrypto` (no state effect here),
`INSERT INTO meta.users ('admin', crypt('admin123', gen_salt('bf')),
true) ON CONFLICT (username) DO NOTHING`, and `CREATE OR REPLACE
FUNCTION` for `meta.is_admin`, `meta.get_user_teams`,
`meta.deploy_table` (modelled by the Lean functions above, no state
effect). -/
def initialize_central_database (s : DBState) (now : Nat) (salt : String) : DBState :=
  let s5 := init_schema_and_tables s
  if s5.users.any (fun u => u.username == "admin") then s5
  else
    { s5 with
      users := s5.users ++ [⟨s5.nextUserId, "admin", .bcrypt "admin123" salt, true, now⟩],
      nextUserId := s5.nextUserId + 1 }

/-- The outcome of `create_team`. -/
inductive CreateTeamOutcome where
  /-- The team was created; payload is the returned `id`. -/
  | ok (team_id : Nat)
  /-- The `INSERT INTO meta.teams` hit a `UNIQUE` violation
  (duplicate `name` or duplicate `schema_name`). -/
  | conflict
deriving DecidableEq, Repr

/-- `create_team(team_name)` (manage-central.py, lines 120-159):
derive `schema_name`; `INSERT INTO meta.teams (name, schema_name)
RETURNING id` (a `UNIQUE` violation on `name` or `schema_name` raises,
the Python handler catches it, and — `autocommit` being on and the
insert being the first statement — nothing was changed); then
`CREATE SCHEMA IF NOT EXISTS <schema_name>` and, if absent, `CREATE
ROLE team_<schema_name>`. -/
def create_team (s : DBState) (now : Nat) (team_name : String) :
    CreateTeamOutcome × DBState :=
  let schema_name := schemaNameOf team_name
  if s.teams.any (fun t => t.name == team_name || t.schema_name == schema_name) then
    (.conflict, s)
  else
    let tid := s.nextTeamId
    let s1 := { s with
      teams := s.teams ++ [⟨tid, team_name, schema_name, now⟩],
      nextTeamId := tid + 1 }
    let s2 := if schemaExists s1 schema_name then s1
              else { s1 with schemas := s1.schemas ++ [schema_name] }
    let grp := "team_" ++ schema_name
    let s3 := if roleExists s2 grp then s2
              else { s2 with roles := s2.roles ++ [⟨grp, none⟩] }
    (.ok tid, s3)

/-- The outcome of `create_user`. -/
inductive CreateUserOutcome where
  /-- The user was created (the closing messages were printed). -/
  | ok
  /-- The `INSERT INTO meta.users` hit the `UNIQUE(username)` violation. -/
  | usernameConflict
  /-- A `GRANT` statement failed (a role or schema it names is absent). -/
  | grantFailed
deriving DecidableEq, Repr

/-- The key/value lines of the `{username}.env` connection file written
by `create_user`.  The `DB_HOST`, `DB_PORT` and `DB_DATABASE` lines are
environment-derived constants and are elided; the lines that depend on
the operation's inputs are kept. -/
def envFileLines (pg_username password : String)
    (team_info : Option (Nat × String × String)) : List (String × String) :=
  [("DB_USERNAME", pg_username), ("DB_PASSWORD", password)] ++
  (match team_info with
   | none => []
   | some (tid, tname, sch) =>
       [("DB_TEAM_ID", toString tid), ("DB_TEAM_NAME", tname), ("DB_SCHEMA", sch)])

/-- `open(f"{username}.env", "w")`: write (or overwrite) a file. -/
def writeFile (s : DBState) (fname : String) (lines : List (String × String)) : DBState :=
  { s with files := s.files.filter (fun f => f.1 != fname) ++ [(fname, lines)] }

/-- Step 1 of `create_user`: the `DO` block that runs
`CREATE USER <pg_username> WITH PASSWORD <password>` only when no role
of that name exists yet. -/
def ensure_user_role (s : DBState) (pg_username password : String) : DBState :=
  if roleExists s pg_username then s
  else { s with roles := s.roles ++ [⟨pg_username, some password⟩] }

/-- The team block of `create_user` (membership insert plus the three
`GRANT` statements), run when the `--team` name resolved to a team row.
`.error st` models a raised `GRANT`: `st` holds the effects before the
failing statement and the run aborts there. -/
def create_user_team_block (s2 : DBState) (now uid : Nat) (pg_username : String)
    (t : TeamRow) : Except DBState DBState :=
  let s3 := if s2.team_members.any (fun tm => tm.user_id == uid && tm.team_id == t.id)
            then s2
            else { s2 with
              team_members := s2.team_members ++ [⟨s2.nextMemberId, uid, t.id, now⟩],
              nextMemberId := s2.nextMemberId + 1 }
  let grp := "team_" ++ t.schema_name
  if ¬ (roleExists s3 grp && roleExists s3 pg_username) then .error s3
  else
    let s4 := { s3 with grants := s3.grants ++ [.roleMember pg_username grp] }
    if ¬ schemaExists s4 t.schema_name then .error s4
    else
      let s5 := { s4 with grants := s4.grants ++ [.schemaUsage pg_username t.schema_name] }
      if ¬ schemaExists s5 "meta" then .error s5
      else .ok { s5 with grants := s5.grants ++ [.schemaUsage pg_username "meta"] }

/-- The team lines of the connection file: present exactly when a team
was named (`if team and team_result:`) and resolved to a row. -/
def envTeamEntries (team : Option String) (tr : Option TeamRow) :
    Option (Nat × String × String) :=
  match tr with
  | none => none
  | some t =>
      match team with
      | none => none
      | some tname => some (t.id, tname, t.schema_name)

/-- Tail of `create_user`, after the `meta.users` insert succeeded:
team block (when a team was named and found), admin grants, and the
`{username}.env` connection file. -/
def create_user_finish (s2 : DBState) (now uid : Nat)
    (username pg_username password : String) (admin_flag : Bool)
    (team : Option String) (team_result : Option TeamRow) :
    CreateUserOutcome × DBState :=
  let afterTeam : Except DBState DBState :=
    match team_result with
    | none => .ok s2
    | some t => create_user_team_block s2 now uid pg_username t
  match afterTeam with
  | .error s3 => (.grantFailed, s3)
  | .ok s6 =>
      let s7 := if admin_flag then
          { s6 with grants := s6.grants ++
            [.dbAll pg_username, .schemaAll pg_username "meta",
             .tablesAll pg_username "meta", .seqAll pg_username "meta"] }
        else s6
      (.ok, writeFile s7 (username ++ ".env")
        (envFileLines pg_username password (envTeamEntries team team_result)))

/-- `create_user(username, password, is_admin, team)` (manage-central.py,
lines 161-255, with a password supplied, so the interactive prompt is
skipped):
1. if no role named `user_<slug>` exists, `CREATE USER ... WITH PASSWORD`;
2. `INSERT INTO meta.users (username, crypt(password, gen_salt('bf')),
   is_admin) RETURNING id` (`UNIQUE(username)` violation aborts here —
   with `autocommit` on, the role creation of step 1 persists);
3. if `team` is given and resolves by name: `INSERT INTO
   meta.team_members ... ON CONFLICT DO NOTHING`, then `GRANT
   team_<schema> TO user_<slug>`, `GRANT USAGE ON SCHEMA <schema>`,
   `GRANT USAGE ON SCHEMA meta` (each `GRANT` raises when a role or
   schema it names is absent, aborting the rest); an unresolvable team
   name only prints a warning;
4. if `is_admin`: the four `GRANT ALL PRIVILEGES` statements;
5. write the `{username}.env` connection file. -/
def create_user (s : DBState) (now : Nat) (salt : String)
    (username password : String) (admin_flag : Bool) (team : Option String) :
    CreateUserOutcome × DBState :=
  let pg_username := pgUsernameOf username
  let s1 := ensure_user_role s pg_username password
  if s1.users.any (fun u => u.username == username) then
    (.usernameConflict, s1)
  else
    let uid := s1.nextUserId
    let s2 := { s1 with
      users := s1.users ++ [⟨uid, username, .bcrypt password salt, admin_flag, now⟩],
      nextUserId := uid + 1 }
    let team_result := match team with
      | none => none
      | some tname => findTeamByName s2 tname
    create_user_finish s2 now uid username pg_username password admin_flag team team_result

/-- The outcome of `remove_user`. -/
inductive RemoveUserOutcome where
  /-- The user (and role, when present) was removed. -/
  | ok
  /-- No `meta.users` row matches the username. -/
  | notFound
  /-- The `DELETE FROM meta.users` is blocked by the `NO ACTION`
  foreign key `meta.tables.created_by`. -/
  | fkViolation
deriving DecidableEq, Repr

/-- `remove_user(username)` (manage-central.py, lines 257-299): resolve
the `meta.users` row (missing: print an error, change nothing); `DELETE
FROM meta.users WHERE id = ...` (memberships cascade; a `meta.tables`
row whose `created_by` references the user blocks the delete, since
that foreign key has no `ON DELETE` action); then, if the role
`user_<slug>` exists, `DROP OWNED BY` it (stripping its grants) and
`DROP USER` it. -/
def remove_user (s : DBState) (username : String) : RemoveUserOutcome × DBState :=
  match findUser s username with
  | none => (.notFound, s)
  | some u =>
    if s.tables.any (fun r => r.created_by == some u.id) then
      (.fkViolation, s)
    else
      let pg_username := pgUsernameOf username
      let s1 := { s with
        users := s.users.filter (fun x => x.id != u.id),
        team_members := s.team_members.filter (fun tm => tm.user_id != u.id) }
      let s2 := if roleExists s1 pg_username then
          { s1 with
            roles := s1.roles.filter (fun r => r.name != pg_username),
            grants := s1.grants.filter (fun g => g.grantee != pg_username) }
        else s1
      (.ok, s2)

/-- The outcome of `add_user_to_team`. -/
inductive AddMemberOutcome where
  /-- `"User '<u>' added to team '<t>'"`: the edge was newly inserted
  and the grants were performed. -/
  | added
  /-- `"User '<u>' is already a member of team '<t>'"`: the
  `ON CONFLICT DO NOTHING` insert returned no row; nothing changed. -/
  | alreadyMember
  /-- No `meta.users` row matches the username. -/
  | userNotFound
  /-- No `meta.teams` row matches the team name. -/
  | teamNotFound
  /-- A `GRANT` statement failed (a role or schema it names is absent). -/
  | grantFailed
deriving DecidableEq, Repr

/-- `add_user_to_team(username, team_name)` (manage-central.py,
lines 301-370): resolve the user and the team (missing: print an error,
change nothing); `INSERT INTO meta.team_members ... ON CONFLICT DO
NOTHING RETURNING id`; when no row comes back the user is reported as
already a member and nothing else runs; on first insertion `GRANT
team_<schema> TO user_<slug>`, `GRANT USAGE ON SCHEMA <schema>`, and a
loop granting `ALL PRIVILEGES` on every table of `pg_tables` whose
`schemaname` is the team schema. -/
def add_user_to_team (s : DBState) (now : Nat) (username team_name : String) :
    AddMemberOutcome × DBState :=
  match findUser s username with
  | none => (.userNotFound, s)
  | some u =>
    let pg_username := pgUsernameOf username
    match findTeamByName s team_name with
    | none => (.teamNotFound, s)
    | some t =>
      if s.team_members.any (fun tm => tm.user_id == u.id && tm.team_id == t.id) then
        (.alreadyMember, s)
      else
        let s1 := { s with
          team_members := s.team_members ++ [⟨s.nextMemberId, u.id, t.id, now⟩],
          nextMemberId := s.nextMemberId + 1 }
        let grp := "team_" ++ t.schema_name
        if ¬ (roleExists s1 grp && roleExists s1 pg_username) then
          (.grantFailed, s1)
        else
          let s2 := { s1 with grants := s1.grants ++ [.roleMember pg_username grp] }
          if ¬ schemaExists s2 t.schema_name then
            (.grantFailed, s2)
          else
            let tbls := (s2.phys.filter (fun p => p.schema_name == t.schema_name)).map
              (fun p => p.table_name)
            let backfill : List Grant :=
              tbls.map (fun tb => .tablePriv pg_username t.schema_name tb)
            (.added, { s2 with grants :=
              s2.grants ++ [.schemaUsage pg_username t.schema_name] ++ backfill })

/-! ### Concrete scenario states -/

/-- Freshly initialized database (admin user id 1). -/
def c3s0 : DBState := initialize_central_database emptyState 0 "a"

/-- ... then `create-team Alpha` (team id 1, schema `team_alpha`). -/
def c3s1 : DBState := (create_team c3s0 1 "Alpha").2

/-- ... then `create-user bob --team Alpha` (user id 2, role `user_bob`). -/
def c3s2 : DBState := (create_user c3s1 2 "saltB" "bob" "bobpw" false (some "Alpha")).2

/-- ... then `create-user eve` with no team (user id 3, role `user_eve`). -/
def c3s3 : DBState := (create_user c3s2 4 "saltE" "eve" "evepw" false none).2

/-- Freshly initialized database for the redeployment scenario. -/
def c4s0 : DBState := initialize_central_database emptyState 0 "a"

/-- ... then `create-team Data` (team id 1, schema `team_data`). -/
def c4s1 : DBState := (create_team c4s0 1 "Data").2

/-- First deployment of `team_data.orders` by the catalog admin
(connected as `current_user = 'admin'`, which matches the catalog row). -/
def c4d1 : DeployOutcome × DBState := deploy_table c4s1 2 "admin" 1 "orders" "(id INT)"

/-- Second, identical deployment of `team_data.orders`. -/
def c4d2 : DeployOutcome × DBState := deploy_table c4d1.2 3 "admin" 1 "orders" "(id INT)"

/-- Database after `create-user carol` (password `hunter2`). -/
def c8state : DBState :=
  (create_user (initialize_central_database emptyState 0 "s0") 1 "s1" "carol" "hunter2" false none).2

/-- State for the witness of `get_user_teams_characterization`: an
administrator `root`, a plain user `bob` who is a member of team 1, and
no row for `ghost`. -/
def c2state : DBState :=
  { emptyState with
    teams := [⟨1, "Alpha", "team_alpha", 0⟩],
    users := [⟨1, "root", .bcrypt "r" "s", true, 0⟩, ⟨2, "bob", .bcrypt "b" "s", false, 0⟩],
    team_members := [⟨1, 2, 1, 0⟩] }

/-- State for the witness of
`deploy_table_create_failure_no_catalog_write`: team `Data` with its
schema and an existing physical table `team_data.orders` that has no
catalog row, and an administrator `admin`. -/
def c5state : DBState :=
  { emptyState with
    teams := [⟨1, "Data", "team_data", 0⟩],
    users := [⟨1, "admin", .bcrypt "admin123" "a", true, 0⟩],
    schemas := ["meta", "team_data"],
    phys := [⟨"team_data", "orders", "(id INT)"⟩],
    roles := [⟨"team_team_data", none⟩] }

/-- All teams in the catalog carry pairwise-distinct schema identifiers
(the `UNIQUE(schema_name)` invariant of `meta.teams`). -/
def teamsDistinct (s : DBState) : Prop :=
  s.teams.Pairwise (fun a b => a.schema_name ≠ b.schema_name)

instance (s : DBState) : Decidable (teamsDistinct s) :=
  inferInstanceAs
    (Decidable (s.teams.Pairwise (fun a b : TeamRow => a.schema_name ≠ b.schema_name)))

/-- A sequence of `create-team` invocations. -/
def createTeams (s : DBState) (names : List String) : DBState :=
  names.foldl (fun st n => (create_team st 0 n).2) s

/-- State for the witness of `create_team_unique_schemas_and_conflict`:
one existing team `Alpha` with identifier `team_alpha`. -/
def c6state : DBState := { emptyState with teams := [⟨1, "Alpha", "team_alpha", 0⟩] }

/-- State for the witness of `add_user_to_team_noop_or_grants`: team
`Alpha` (schema `team_alpha` holding one physical table `orders`), user
`bob` already a member, user `carol` not yet a member. -/
def c7state : DBState :=
  { emptyState with
    teams := [⟨1, "Alpha", "team_alpha", 0⟩],
    users := [⟨2, "bob", .bcrypt "b" "s", false, 0⟩, ⟨3, "carol", .bcrypt "c" "s", false, 0⟩],
    team_members := [⟨1, 2, 1, 0⟩],
    nextMemberId := 2,
    schemas := ["meta", "team_alpha"],
    phys := [⟨"team_alpha", "orders", "(id INT)"⟩],
    roles := [⟨"team_team_alpha", none⟩, ⟨"user_bob", some "b"⟩, ⟨"user_carol", some "c"⟩] }

/-- State for the witness of `user_role_collision_shared_role`: catalog
user `Bob` whose database role `user_bob` (credential `pw1`) exists. -/
def c9state : DBState :=
  { emptyState with
    users := [⟨1, "Bob", .bcrypt "pw1" "sB", false, 0⟩],
    nextUserId := 2,
    roles := [⟨"user_bob", some "pw1"⟩] }

/-! ### Claim theorems -/

/-- **C1.** For every principal and every `team_id` not among the
principal's visible teams, `meta.deploy_table` raises the Unauthorized
exception and has no partial effects: the state is returned untouched,
so in particular no physical table is created and no `meta.tables` row
is inserted or refreshed. -/
theorem deploy_table_unauthorized_no_effects
    (s : DBState) (now : Nat) (cu : String) (tid : Nat) (tname tdef : String)
    (h : ∀ p ∈ get_user_teams s cu, p.1 ≠ tid) :
    deploy_table s now cu tid tname tdef = (.unauthorized, s) ∧
    (deploy_table s now cu tid tname tdef).2.phys = s.phys ∧
    (deploy_table s now cu tid tname tdef).2.tables = s.tables := by
  have hg : ((get_user_teams s cu).any (fun p => p.1 == tid)) = false := by
    simp only [List.any_eq_false, beq_iff_eq]
    exact fun p hp => h p hp
  refine ⟨?_, ?_, ?_⟩ <;> simp [deploy_table, hg]

/-- Witness for `deploy_table_unauthorized_no_effects`: the empty
database, principal `eve`, team 1. -/
theorem deploy_table_unauthorized_no_effects_witness :
    (∀ p ∈ get_user_teams emptyState "eve", p.1 ≠ 1) ∧
    deploy_table emptyState 0 "eve" 1 "orders" "(id INT)" = (.unauthorized, emptyState) :=
  ⟨by decide,
   (deploy_table_unauthorized_no_effects emptyState 0 "eve" 1 "orders" "(id INT)"
     (by decide)).1⟩

/-- **C3.** The concrete scenario.  Team `Alpha` gets schema identifier
`team_alpha` and id 1; `bob` (user id 2) is a member of team 1; `eve`
has no membership and her deployment attempt (under her derived role
`user_eve`) is rejected as unauthorized — but, contrary to the claim,
so is **bob's**: bob connects under his derived database role
`user_bob`, while `meta.users.username` stores `bob`, so
`meta.get_user_teams()` (which matches `username = current_user`) finds
no teams for him and `meta.deploy_table` raises Unauthorized instead of
creating `team_alpha.orders`. -/
theorem scenario_alpha_bob_eve :
    (create_team c3s0 1 "Alpha").1 = .ok 1 ∧
    (∃ t ∈ c3s1.teams, t.id = 1 ∧ t.name = "Alpha" ∧ t.schema_name = "team_alpha") ∧
    (∃ u ∈ c3s2.users, u.username = "bob" ∧ u.id = 2 ∧
      ∃ tm ∈ c3s2.team_members, tm.user_id = 2 ∧ tm.team_id = 1) ∧
    (deploy_table c3s2 3 "user_bob" 1 "orders" "(id INT)").1 = .unauthorized ∧
    (deploy_table c3s3 5 "user_eve" 1 "accounts" "(i INT)").1 = .unauthorized := by
  decide

/-- **C4.** Deploying the same table twice with an identical definition
is *not* idempotent: the first call succeeds, but the second one fails
at the `CREATE TABLE` statement (written without `IF NOT EXISTS`), so
the `ON CONFLICT ... DO UPDATE SET updated_at` upsert is never reached
and the `meta.tables` row keeps its old `updated_at` (2, not 3). -/
theorem redeploy_identical_fails :
    c4d1.1 = .ok ∧
    c4d2.1 = .duplicateTable ∧
    c4d2.2.tables = c4d1.2.tables ∧
    (∃ r ∈ c4d2.2.tables, r.table_name = "orders" ∧ r.updated_at = 2) := by
  decide

/-- **C8 (counterexample).** After `create-user carol` with password
`hunter2`, the catalog row does store only the bcrypt digest — but the
operation also writes the connection file `carol.env`, a durable store
whose `DB_PASSWORD` line holds the plaintext credential. -/
theorem create_user_writes_plaintext_env :
    (∃ u ∈ c8state.users, u.username = "carol" ∧
        u.password_hash = .bcrypt "hunter2" "s1") ∧
    (∃ f ∈ c8state.files, f.1 = "carol.env" ∧ ("DB_PASSWORD", "hunter2") ∈ f.2) := by
  decide

/-- **C2.** Characterization of the authorization queries:
(1) when the principal's `meta.users` row has `is_admin`, the result of
`meta.get_user_teams()` is every team's `(id, schema_name)`,
independent of the membership edges;
(2) otherwise it holds exactly the `(id, schema_name)` pairs of the
teams reachable from that user's row through a `meta.team_members`
edge;
(3) when no `meta.users` row matches the principal, `meta.is_admin()`
returns `false` (not an error) and the visible set is empty. -/
theorem get_user_teams_characterization (s : DBState) (cu : String) :
    (∀ u, findUser s cu = some u → u.is_admin = true →
      ∀ ms : List MemberRow,
        get_user_teams { s with team_members := ms } cu
          = s.teams.map (fun t => (t.id, t.schema_name))) ∧
    (∀ u, findUser s cu = some u → u.is_admin = false →
      ∀ p : Nat × String, p ∈ get_user_teams s cu ↔
        ∃ t ∈ s.teams,
          (∃ tm ∈ s.team_members, tm.user_id = u.id ∧ tm.team_id = t.id) ∧
          p = (t.id, t.schema_name)) ∧
    (findUser s cu = none → is_admin s cu = false ∧ get_user_teams s cu = []) := by
  refine ⟨?_, ?_, ?_⟩
  · intro u hu ha ms
    have hu' : findUser { s with team_members := ms } cu = some u := hu
    have hadm : is_admin { s with team_members := ms } cu = true := by
      simp [is_admin, hu', ha]
    simp [get_user_teams, hadm]
  · intro u hu ha p
    have hadm : is_admin s cu = false := by simp [is_admin, hu, ha]
    simp only [get_user_teams, hadm, Bool.false_eq_true, if_false, hu,
      List.mem_map, List.mem_filter, List.any_eq_true, Bool.and_eq_true, beq_iff_eq]
    constructor
    · rintro ⟨t, ⟨ht, tm, htm, h1, h2⟩, hp⟩
      exact ⟨t, ht, ⟨tm, htm, h1, h2⟩, hp.symm⟩
    · rintro ⟨t, ht, ⟨tm, htm, h1, h2⟩, hp⟩
      exact ⟨t, ⟨ht, tm, htm, h1, h2⟩, hp.symm⟩
  · intro hn
    have hadm : is_admin s cu = false := by simp [is_admin, hn]
    exact ⟨hadm, by simp [get_user_teams, hadm, hn]⟩

/-- Witness for `get_user_teams_characterization`: `root` sees every
team even with all membership edges removed, `bob` sees team 1 through
his edge, and `ghost` is simply not an administrator. -/
theorem get_user_teams_characterization_witness :
    get_user_teams { c2state with team_members := [] } "root" = [(1, "team_alpha")] ∧
    (1, "team_alpha") ∈ get_user_teams c2state "bob" ∧
    is_admin c2state "ghost" = false := by
  refine ⟨?_, ?_, ?_⟩
  · exact ((get_user_teams_characterization c2state "root").1
      ⟨1, "root", .bcrypt "r" "s", true, 0⟩ (by decide) rfl []).trans (by decide)
  · exact ((get_user_teams_characterization c2state "bob").2.1
      ⟨2, "bob", .bcrypt "b" "s", false, 0⟩ (by decide) rfl (1, "team_alpha")).mpr
      ⟨⟨1, "Alpha", "team_alpha", 0⟩, by decide, ⟨⟨1, 2, 1, 0⟩, by decide, rfl, rfl⟩, rfl⟩
  · exact ((get_user_teams_characterization c2state "ghost").2.2 (by decide)).1

/-- **C5.** Atomicity with respect to table-creation failure: whenever
an authorized `meta.deploy_table` call reaches the `CREATE TABLE` step
and the physical table already exists, the whole operation fails with
the duplicate-table error and the `meta.tables` catalog is neither
written nor refreshed (and no physical table is added). -/
theorem deploy_table_create_failure_no_catalog_write
    (s : DBState) (now : Nat) (cu : String) (tid : Nat) (tname tdef : String)
    (t : TeamRow)
    (hauth : (get_user_teams s cu).any (fun p => p.1 == tid) = true)
    (hteam : findTeamById s tid = some t)
    (hphys : physTableExists s t.schema_name tname = true) :
    (deploy_table s now cu tid tname tdef).1 = .duplicateTable ∧
    (deploy_table s now cu tid tname tdef).2.tables = s.tables ∧
    (deploy_table s now cu tid tname tdef).2.phys = s.phys := by
  have h2 : physTableExists { s with schemas := s.schemas ++ [t.schema_name] }
      t.schema_name tname = true := hphys
  by_cases hsch : schemaExists s t.schema_name = true <;>
    refine ⟨?_, ?_, ?_⟩ <;>
      simp [deploy_table, hauth, hteam, hsch, hphys, h2]

/-- Witness for `deploy_table_create_failure_no_catalog_write`:
redeploying `orders` into team 1 of `c5state` fails and leaves the
catalog empty. -/
theorem deploy_table_create_failure_no_catalog_write_witness :
    ((get_user_teams c5state "admin").any (fun p => p.1 == 1) = true) ∧
    (deploy_table c5state 7 "admin" 1 "orders" "(id BIGINT)").1 = .duplicateTable ∧
    (deploy_table c5state 7 "admin" 1 "orders" "(id BIGINT)").2.tables = c5state.tables :=
  ⟨by decide,
   (deploy_table_create_failure_no_catalog_write c5state 7 "admin" 1 "orders" "(id BIGINT)"
     ⟨1, "Data", "team_data", 0⟩ (by decide) (by decide) (by decide)).1,
   (deploy_table_create_failure_no_catalog_write c5state 7 "admin" 1 "orders" "(id BIGINT)"
     ⟨1, "Data", "team_data", 0⟩ (by decide) (by decide) (by decide)).2.1⟩

/-- The team rows after `create_team`: unchanged on a conflict,
otherwise extended by the new row. -/
theorem create_team_teams (s : DBState) (now : Nat) (n : String) :
    (create_team s now n).2.teams =
      if (s.teams.any fun t => t.name == n || t.schema_name == schemaNameOf n) then s.teams
      else s.teams ++ [⟨s.nextTeamId, n, schemaNameOf n, now⟩] := by
  simp only [create_team]
  split
  · rfl
  · split <;> split <;> rfl

/-- One `create_team` call preserves distinctness of schema identifiers:
a colliding name is rejected by the `UNIQUE` constraint, so the row is
only inserted when its identifier is new. -/
theorem create_team_preserves_distinct (s : DBState) (now : Nat) (n : String)
    (h : teamsDistinct s) : teamsDistinct (create_team s now n).2 := by
  rw [teamsDistinct, create_team_teams]
  by_cases hc : (s.teams.any fun t => t.name == n || t.schema_name == schemaNameOf n) = true
  · rw [if_pos hc]; exact h
  · rw [if_neg hc]
    refine List.pairwise_append.mpr ⟨h, by simp, ?_⟩
    intro a ha b hb
    have hb' : b = ⟨s.nextTeamId, n, schemaNameOf n, now⟩ := by simpa using hb
    subst hb'
    have hc2 : (s.teams.any fun t => t.name == n || t.schema_name == schemaNameOf n) = false := by
      simpa using hc
    rw [List.any_eq_false] at hc2
    intro heq
    exact hc2 a ha (by simp [heq])

/-- **C6.** (1) Any sequence of `create_team` calls keeps the catalog's
schema identifiers pairwise distinct; (2) a `create_team` call whose
derived identifier collides with an existing team's fails with the
uniqueness conflict and changes nothing — no team row, no schema, no
role. -/
theorem create_team_unique_schemas_and_conflict :
    (∀ (s : DBState) (names : List String),
        teamsDistinct s → teamsDistinct (createTeams s names)) ∧
    (∀ (s : DBState) (now : Nat) (name : String),
        (∃ t ∈ s.teams, t.schema_name = schemaNameOf name) →
        create_team s now name = (.conflict, s)) := by
  constructor
  · intro s names
    induction names generalizing s with
    | nil => exact fun h => h
    | cons n ns ih =>
        intro h
        simpa [createTeams, List.foldl_cons] using
          ih ((create_team s 0 n).2) (create_team_preserves_distinct s 0 n h)
  · rintro s now name ⟨t, ht, hsn⟩
    have hc : (s.teams.any fun x => x.name == name || x.schema_name == schemaNameOf name)
        = true := by
      simp only [List.any_eq_true, Bool.or_eq_true, beq_iff_eq]
      exact ⟨t, ht, Or.inr hsn⟩
    simp [create_team, hc]

/-- Witness for `create_team_unique_schemas_and_conflict`: creating
`Alpha` and `Beta` from the empty database keeps identifiers distinct,
and creating `ALPHA` next to `Alpha` (both slug to `team_alpha`)
conflicts and changes nothing. -/
theorem create_team_unique_schemas_and_conflict_witness :
    teamsDistinct emptyState ∧
    teamsDistinct (createTeams emptyState ["Alpha", "Beta"]) ∧
    create_team c6state 5 "ALPHA" = (.conflict, c6state) :=
  ⟨by decide,
   create_team_unique_schemas_and_conflict.1 emptyState ["Alpha", "Beta"] (by decide),
   create_team_unique_schemas_and_conflict.2 c6state 5 "ALPHA"
     ⟨⟨1, "Alpha", "team_alpha", 0⟩, by decide, by decide⟩⟩

/-- **C7.** `add_user_to_team` on a resolvable user and team:
(1) when the `(user, team)` edge already exists, the `ON CONFLICT DO
NOTHING` insert returns no row, the call reports "already a member"
(distinct from the "added" report) and performs no effect at all;
(2) on first insertion (with the roles and schema present, as
`create_team`/`create_user` leave them) it reports "added", inserts the
edge, grants the team role to the user role, grants USAGE on the team
schema, and — as a backfill — grants privileges on every table
currently in the team's physical schema. -/
theorem add_user_to_team_noop_or_grants
    (s : DBState) (now : Nat) (uname tname : String) (u : UserRow) (t : TeamRow)
    (hu : findUser s uname = some u)
    (ht : findTeamByName s tname = some t) :
    (s.team_members.any (fun tm => tm.user_id == u.id && tm.team_id == t.id) = true →
      add_user_to_team s now uname tname = (.alreadyMember, s)) ∧
    (s.team_members.any (fun tm => tm.user_id == u.id && tm.team_id == t.id) = false →
     roleExists s ("team_" ++ t.schema_name) = true →
     roleExists s (pgUsernameOf uname) = true →
     schemaExists s t.schema_name = true →
     (add_user_to_team s now uname tname).1 = .added ∧
     (⟨s.nextMemberId, u.id, t.id, now⟩ : MemberRow)
        ∈ (add_user_to_team s now uname tname).2.team_members ∧
     Grant.roleMember (pgUsernameOf uname) ("team_" ++ t.schema_name)
        ∈ (add_user_to_team s now uname tname).2.grants ∧
     Grant.schemaUsage (pgUsernameOf uname) t.schema_name
        ∈ (add_user_to_team s now uname tname).2.grants ∧
     (∀ p ∈ s.phys, p.schema_name = t.schema_name →
        Grant.tablePriv (pgUsernameOf uname) t.schema_name p.table_name
          ∈ (add_user_to_team s now uname tname).2.grants)) := by
  constructor
  · intro hm
    simp [add_user_to_team, hu, ht, hm]
  · intro hm hr1 hr2 hsch
    rw [roleExists] at hr1 hr2
    rw [schemaExists] at hsch
    refine ⟨?_, ?_, ?_, ?_, ?_⟩
    · simp [add_user_to_team, hu, ht, hm, roleExists, schemaExists, hr1, hr2, hsch]
    · simp [add_user_to_team, hu, ht, hm, roleExists, schemaExists, hr1, hr2, hsch]
    · simp [add_user_to_team, hu, ht, hm, roleExists, schemaExists, hr1, hr2, hsch]
    · simp [add_user_to_team, hu, ht, hm, roleExists, schemaExists, hr1, hr2, hsch]
    · intro p hp hps
      simp only [add_user_to_team, hu, ht, hm, roleExists, schemaExists, hr1, hr2, hsch,
        Bool.and_self, not_true_eq_false, if_false, Bool.false_eq_true, List.mem_append,
        List.mem_map, List.mem_filter, List.mem_singleton]
      exact Or.inr ⟨p.table_name, ⟨p, ⟨hp, by simp [hps]⟩, rfl⟩, rfl⟩

/-- Witness for `add_user_to_team_noop_or_grants`: adding `bob` again is
a reported no-op; adding `carol` inserts the edge and backfills the
grant on `team_alpha.orders`. -/
theorem add_user_to_team_noop_or_grants_witness :
    add_user_to_team c7state 9 "bob" "Alpha" = (.alreadyMember, c7state) ∧
    (add_user_to_team c7state 9 "carol" "Alpha").1 = .added ∧
    Grant.tablePriv "user_carol" "team_alpha" "orders"
      ∈ (add_user_to_team c7state 9 "carol" "Alpha").2.grants :=
  ⟨(add_user_to_team_noop_or_grants c7state 9 "bob" "Alpha"
      ⟨2, "bob", .bcrypt "b" "s", false, 0⟩ ⟨1, "Alpha", "team_alpha", 0⟩
      (by decide) (by decide)).1 (by decide),
   ((add_user_to_team_noop_or_grants c7state 9 "carol" "Alpha"
      ⟨3, "carol", .bcrypt "c" "s", false, 0⟩ ⟨1, "Alpha", "team_alpha", 0⟩
      (by decide) (by decide)).2 (by decide) (by decide) (by decide) (by decide)).1,
   ((add_user_to_team_noop_or_grants c7state 9 "carol" "Alpha"
      ⟨3, "carol", .bcrypt "c" "s", false, 0⟩ ⟨1, "Alpha", "team_alpha", 0⟩
      (by decide) (by decide)).2 (by decide) (by decide) (by decide) (by decide)).2.2.2.2
      ⟨"team_alpha", "orders", "(id INT)"⟩ (by decide) (by decide)⟩

/-- Structural fields of `create_user_team_block`: whichever way the
block exits, it never touches the user rows, the roles, the files or
the `users` id counter. -/
theorem create_user_team_block_fields (s2 : DBState) (now uid : Nat) (pg : String) (t : TeamRow) :
    (∀ x, create_user_team_block s2 now uid pg t = .ok x →
       x.users = s2.users ∧ x.roles = s2.roles ∧ x.files = s2.files ∧
       x.nextUserId = s2.nextUserId) ∧
    (∀ x, create_user_team_block s2 now uid pg t = .error x →
       x.users = s2.users ∧ x.roles = s2.roles ∧ x.files = s2.files ∧
       x.nextUserId = s2.nextUserId) := by
  constructor <;> intro x hx <;>
    simp only [create_user_team_block] at hx <;>
    split_ifs at hx <;>
    cases hx <;> simp

/-- When `create_user_finish` reports success it has written the
`{username}.env` connection file — whose lines contain the plaintext
password — and has left the user rows as they were after the insert. -/
theorem create_user_finish_ok_effects (s2 : DBState) (now uid : Nat)
    (uname pg pw : String) (adm : Bool) (team : Option String) (tr : Option TeamRow)
    (h : (create_user_finish s2 now uid uname pg pw adm team tr).1 = .ok) :
    (∃ f ∈ (create_user_finish s2 now uid uname pg pw adm team tr).2.files,
        f.1 = uname ++ ".env" ∧ ("DB_PASSWORD", pw) ∈ f.2) ∧
    (create_user_finish s2 now uid uname pg pw adm team tr).2.users = s2.users := by
  cases tr with
  | none =>
      simp only [create_user_finish] at h ⊢
      refine ⟨⟨(uname ++ ".env", envFileLines pg pw (envTeamEntries team none)), ?_, rfl, ?_⟩, ?_⟩
      · split <;> simp [writeFile]
      · simp [envFileLines]
      · split <;> simp [writeFile]
  | some t =>
      cases hb : create_user_team_block s2 now uid pg t with
      | error s3 =>
          simp [create_user_finish, hb] at h
      | ok s6 =>
          have hf := ((create_user_team_block_fields s2 now uid pg t).1 s6 hb)
          simp only [create_user_finish, hb] at h ⊢
          refine ⟨⟨(uname ++ ".env", envFileLines pg pw (envTeamEntries team (some t))), ?_, rfl, ?_⟩, ?_⟩
          · split <;> simp [writeFile]
          · simp [envFileLines]
          · split <;> simp [writeFile, hf.1]

/-- **C8 (amended).** Every successful `create_user` stores the user's
credential in `meta.users` only as the salted bcrypt digest
`crypt(password, gen_salt('bf'))` — but the operation also writes a
durable connection file `{username}.env` whose `DB_PASSWORD` line holds
the plaintext credential. -/
theorem create_user_stores_hash_but_writes_plaintext
    (s : DBState) (now : Nat) (salt uname pw : String) (adm : Bool) (team : Option String)
    (h : (create_user s now salt uname pw adm team).1 = .ok) :
    (∃ u ∈ (create_user s now salt uname pw adm team).2.users,
        u.username = uname ∧ u.password_hash = .bcrypt pw salt) ∧
    (∃ f ∈ (create_user s now salt uname pw adm team).2.files,
        f.1 = uname ++ ".env" ∧ ("DB_PASSWORD", pw) ∈ f.2) := by
  simp only [create_user] at h ⊢
  by_cases hc : ((ensure_user_role s (pgUsernameOf uname) pw).users.any
      fun u => u.username == uname) = true
  · rw [if_pos hc] at h
    simp at h
  · rw [if_neg hc] at h ⊢
    have he := create_user_finish_ok_effects _ _ _ _ _ _ _ _ _ h
    refine ⟨?_, he.1⟩
    rw [he.2]
    exact ⟨⟨(ensure_user_role s (pgUsernameOf uname) pw).nextUserId, uname,
      .bcrypt pw salt, adm, now⟩, by simp, rfl, rfl⟩

/-- Witness for `create_user_stores_hash_but_writes_plaintext`: the
`carol` scenario. -/
theorem create_user_stores_hash_but_writes_plaintext_witness :
    ((create_user (initialize_central_database emptyState 0 "s0") 1 "s1"
        "carol" "hunter2" false none).1 = .ok) ∧
    (∃ u ∈ c8state.users, u.username = "carol" ∧ u.password_hash = .bcrypt "hunter2" "s1") ∧
    (∃ f ∈ c8state.files, f.1 = "carol" ++ ".env" ∧ ("DB_PASSWORD", "hunter2") ∈ f.2) :=
  ⟨by decide,
   (create_user_stores_hash_but_writes_plaintext
     (initialize_central_database emptyState 0 "s0") 1 "s1" "carol" "hunter2" false none
     (by decide)).1,
   (create_user_stores_hash_but_writes_plaintext
     (initialize_central_database emptyState 0 "s0") 1 "s1" "carol" "hunter2" false none
     (by decide)).2⟩

/-- `create_user_finish` never changes the database roles: only
`CREATE USER` (step 1 of `create_user`) can do that. -/
theorem create_user_finish_roles (s2 : DBState) (now uid : Nat)
    (uname pg pw : String) (adm : Bool) (team : Option String) (tr : Option TeamRow) :
    (create_user_finish s2 now uid uname pg pw adm team tr).2.roles = s2.roles := by
  cases tr with
  | none =>
      simp only [create_user_finish]
      split <;> simp [writeFile]
  | some t =>
      cases hb : create_user_team_block s2 now uid pg t with
      | error s3 =>
          have hf := ((create_user_team_block_fields s2 now uid pg t).2 s3 hb)
          simp [create_user_finish, hb, hf.2.1]
      | ok s6 =>
          have hf := ((create_user_team_block_fields s2 now uid pg t).1 s6 hb)
          simp only [create_user_finish, hb]
          split <;> simp [writeFile, hf.2.1]

/-- **C9.** The role name derived for a user is `user_` plus the
lowercased, space-to-underscore username; the derivation is not
injective (`Bob` and `bob` map to the same role `user_bob`).  When the
derived role already exists, `create_user` skips the `CREATE USER`
statement entirely, so the roles — and in particular the existing
role's credential — are unchanged and the second user's password never
becomes a role credential; the two catalog users then share that one
role, and `remove_user` of either username drops it. -/
theorem user_role_collision_shared_role :
    (pgUsernameOf "Bob" = pgUsernameOf "bob" ∧ "Bob" ≠ "bob" ∧
     pgUsernameOf "Bob" = "user_bob") ∧
    (∀ (s : DBState) (now : Nat) (salt u2 pw2 : String) (adm : Bool),
       roleExists s (pgUsernameOf u2) = true →
       (create_user s now salt u2 pw2 adm none).2.roles = s.roles) ∧
    (∀ (s : DBState) (u1 : String) (u : UserRow),
       findUser s u1 = some u →
       (∀ r ∈ s.tables, r.created_by ≠ some u.id) →
       roleExists (remove_user s u1).2 (pgUsernameOf u1) = false) := by
  refine ⟨⟨by decide, by decide, by decide⟩, ?_, ?_⟩
  · intro s now salt u2 pw2 adm hr
    simp only [create_user]
    have hs1 : ensure_user_role s (pgUsernameOf u2) pw2 = s := by
      simp [ensure_user_role, hr]
    rw [hs1]
    split
    · rfl
    · rw [create_user_finish_roles]
  · intro s u1 u hu hfk
    have hfk2 : (s.tables.any fun r => r.created_by == some u.id) = false := by
      simp only [List.any_eq_false]
      intro r hr
      simpa using hfk r hr
    simp only [remove_user, hu, hfk2, Bool.false_eq_true, if_false]
    split
    · simp only [roleExists, List.any_eq_false]
      intro x hx
      have hmem := List.mem_filter.mp hx
      simpa using hmem.2
    · rename_i hre
      simpa [roleExists] using hre

/-- Witness for `user_role_collision_shared_role`: next to the existing
`Bob` / `user_bob`, creating `bob` leaves the roles untouched, and
removing `Bob` drops the shared role. -/
theorem user_role_collision_shared_role_witness :
    roleExists c9state (pgUsernameOf "bob") = true ∧
    (create_user c9state 1 "s2" "bob" "pw2" false none).2.roles = c9state.roles ∧
    roleExists (remove_user c9state "Bob").2 (pgUsernameOf "Bob") = false :=
  ⟨by decide,
   user_role_collision_shared_role.2.1 c9state 1 "s2" "bob" "pw2" false (by decide),
   user_role_collision_shared_role.2.2 c9state "Bob"
     ⟨1, "Bob", .bcrypt "pw1" "sB", false, 0⟩ (by decide) (by decide)⟩

/-- `CREATE TABLE IF NOT EXISTS meta.<tbl>` leaves every catalog row
list, the user id counter and the schema list unchanged. -/
theorem ensureMetaTable_catalog (s : DBState) (tbl ddl : String) :
    (ensureMetaTable s tbl ddl).users = s.users ∧
    (ensureMetaTable s tbl ddl).teams = s.teams ∧
    (ensureMetaTable s tbl ddl).team_members = s.team_members ∧
    (ensureMetaTable s tbl ddl).tables = s.tables ∧
    (ensureMetaTable s tbl ddl).nextUserId = s.nextUserId ∧
    (ensureMetaTable s tbl ddl).schemas = s.schemas := by
  unfold ensureMetaTable
  split <;> simp

/-- The schema/table-creation stage leaves all catalog rows and the
user id counter unchanged. -/
theorem init_st_fields (s : DBState) :
    (init_schema_and_tables s).users = s.users ∧
    (init_schema_and_tables s).teams = s.teams ∧
    (init_schema_and_tables s).team_members = s.team_members ∧
    (init_schema_and_tables s).tables = s.tables ∧
    (init_schema_and_tables s).nextUserId = s.nextUserId := by
  simp only [init_schema_and_tables, ensureMetaTable]
  split_ifs <;> simp

/-- After `CREATE TABLE IF NOT EXISTS meta.<tbl>`, the table exists. -/
theorem ensureMetaTable_exists_self (s : DBState) (tbl ddl : String) :
    physTableExists (ensureMetaTable s tbl ddl) "meta" tbl = true := by
  unfold ensureMetaTable
  split
  · assumption
  · simp [physTableExists, List.any_append]

/-- `CREATE TABLE IF NOT EXISTS` never removes an existing table. -/
theorem ensureMetaTable_exists_mono (s : DBState) (tbl ddl t2 : String)
    (h : physTableExists s "meta" t2 = true) :
    physTableExists (ensureMetaTable s tbl ddl) "meta" t2 = true := by
  unfold ensureMetaTable
  split
  · exact h
  · simp only [physTableExists] at h ⊢
    simp [List.any_append, h]

/-- After the schema/table-creation stage, all four catalog tables
exist. -/
theorem init_st_tables_exist (s : DBState) :
    physTableExists (init_schema_and_tables s) "meta" "teams" = true ∧
    physTableExists (init_schema_and_tables s) "meta" "users" = true ∧
    physTableExists (init_schema_and_tables s) "meta" "team_members" = true ∧
    physTableExists (init_schema_and_tables s) "meta" "tables" = true := by
  simp only [init_schema_and_tables]
  refine ⟨?_, ?_, ?_, ?_⟩
  · exact ensureMetaTable_exists_mono _ _ _ _ (ensureMetaTable_exists_mono _ _ _ _
      (ensureMetaTable_exists_mono _ _ _ _ (ensureMetaTable_exists_self _ _ _)))
  · exact ensureMetaTable_exists_mono _ _ _ _ (ensureMetaTable_exists_mono _ _ _ _
      (ensureMetaTable_exists_self _ _ _))
  · exact ensureMetaTable_exists_mono _ _ _ _ (ensureMetaTable_exists_self _ _ _)
  · exact ensureMetaTable_exists_self _ _ _

/-- After the schema/table-creation stage, the `meta` schema exists. -/
theorem init_st_meta_schema (s : DBState) :
    schemaExists (init_schema_and_tables s) "meta" = true := by
  simp only [init_schema_and_tables, schemaExists, ensureMetaTable]
  split_ifs <;> simp_all [schemaExists, List.any_append]

/-- When the four catalog tables already exist, the schema/table stage
creates no physical table. -/
theorem init_st_phys_of_exists (s : DBState)
    (h1 : physTableExists s "meta" "teams" = true)
    (h2 : physTableExists s "meta" "users" = true)
    (h3 : physTableExists s "meta" "team_members" = true)
    (h4 : physTableExists s "meta" "tables" = true) :
    (init_schema_and_tables s).phys = s.phys := by
  simp only [init_schema_and_tables, ensureMetaTable, physTableExists] at h1 h2 h3 h4 ⊢
  split_ifs <;> simp_all

/-- When the `meta` schema already exists, the schema/table stage
creates no schema. -/
theorem init_st_schemas_of_exists (s : DBState)
    (h : schemaExists s "meta" = true) :
    (init_schema_and_tables s).schemas = s.schemas := by
  simp only [init_schema_and_tables, ensureMetaTable]
  split_ifs <;> simp_all


/-- The `meta.users` rows after initialization: the initial
administrator row (`admin`, bcrypt hash of `admin123`, `is_admin`) is
appended exactly when no user named `admin` exists (`ON CONFLICT
(username) DO NOTHING`). -/
theorem init_users_eq (s : DBState) (now : Nat) (salt : String) :
    (initialize_central_database s now salt).users =
      if s.users.any (fun u => u.username == "admin") then s.users
      else s.users ++ [⟨s.nextUserId, "admin", .bcrypt "admin123" salt, true, now⟩] := by
  have hf := init_st_fields s
  simp only [initialize_central_database, hf.1, hf.2.2.2.2]
  split <;> simp [hf.1, hf.2.2.2.2]

/-- Initialization never touches team, membership or table rows. -/
theorem init_rows_eq (s : DBState) (now : Nat) (salt : String) :
    (initialize_central_database s now salt).teams = s.teams ∧
    (initialize_central_database s now salt).team_members = s.team_members ∧
    (initialize_central_database s now salt).tables = s.tables := by
  have hf := init_st_fields s
  simp only [initialize_central_database]
  split <;> simp [hf.2.1, hf.2.2.1, hf.2.2.2.1]

/-- The admin insert does not change the schema list. -/
theorem init_schemas_eq (s : DBState) (now : Nat) (salt : String) :
    (initialize_central_database s now salt).schemas = (init_schema_and_tables s).schemas := by
  simp only [initialize_central_database]
  split <;> rfl

/-- The admin insert does not change the physical tables. -/
theorem init_phys_eq (s : DBState) (now : Nat) (salt : String) :
    (initialize_central_database s now salt).phys = (init_schema_and_tables s).phys := by
  simp only [initialize_central_database]
  split <;> rfl

/-- An initialized database always holds a user named `admin`. -/
theorem init_users_has_admin (s : DBState) (now : Nat) (salt : String) :
    (initialize_central_database s now salt).users.any
      (fun u => u.username == "admin") = true := by
  rw [init_users_eq]
  split
  · assumption
  · simp [List.any_append]

/-- On a database that already has the `meta` schema and the four
catalog tables, the schema/table stage is the identity. -/
theorem init_st_identity (s : DBState)
    (hs : schemaExists s "meta" = true)
    (h1 : physTableExists s "meta" "teams" = true)
    (h2 : physTableExists s "meta" "users" = true)
    (h3 : physTableExists s "meta" "team_members" = true)
    (h4 : physTableExists s "meta" "tables" = true) :
    init_schema_and_tables s = s := by
  simp only [init_schema_and_tables, ensureMetaTable]
  split_ifs
  simp_all

/-- Re-running initialization on an initialized database is the
identity on the whole state. -/
theorem initialize_idempotent_full (s : DBState) (n1 : Nat) (a1 : String)
    (n2 : Nat) (a2 : String) :
    initialize_central_database (initialize_central_database s n1 a1) n2 a2
      = initialize_central_database s n1 a1 := by
  have hsch : schemaExists (initialize_central_database s n1 a1) "meta" = true := by
    unfold schemaExists
    rw [init_schemas_eq]
    exact init_st_meta_schema s
  have hex := init_st_tables_exist s
  have hp : ∀ tbl : String, physTableExists (init_schema_and_tables s) "meta" tbl = true →
      physTableExists (initialize_central_database s n1 a1) "meta" tbl = true := by
    intro tbl h
    unfold physTableExists
    rw [init_phys_eq]
    exact h
  have hid := init_st_identity (initialize_central_database s n1 a1) hsch
    (hp _ hex.1) (hp _ hex.2.1) (hp _ hex.2.2.1) (hp _ hex.2.2.2)
  have hadm : ((init_schema_and_tables (initialize_central_database s n1 a1)).users.any
      (fun u => u.username == "admin")) = true := by
    rw [(init_st_fields _).1]
    exact init_users_has_admin s n1 a1
  set t := initialize_central_database s n1 a1
  simp only [initialize_central_database]
  rw [if_pos hadm]
  exact hid

/-- **C10.** Initialization is idempotent: each run creates the `meta`
schema and the four catalog tables only when absent, inserts the
initial administrator row (`admin`, administrator flag set, password
stored as the bcrypt digest of `admin123`) only when no user named
`admin` exists, and leaves every other catalog row untouched — so
re-running initialization against an already-initialized database
changes nothing at all. -/
theorem initialize_central_database_idempotent
    (s : DBState) (n1 n2 : Nat) (a1 a2 : String) :
    ((initialize_central_database s n1 a1).users =
      if s.users.any (fun u => u.username == "admin") then s.users
      else s.users ++ [⟨s.nextUserId, "admin", .bcrypt "admin123" a1, true, n1⟩]) ∧
    ((initialize_central_database s n1 a1).teams = s.teams ∧
     (initialize_central_database s n1 a1).team_members = s.team_members ∧
     (initialize_central_database s n1 a1).tables = s.tables) ∧
    (schemaExists s "meta" = true →
      (initialize_central_database s n1 a1).schemas = s.schemas) ∧
    (physTableExists s "meta" "teams" = true →
     physTableExists s "meta" "users" = true →
     physTableExists s "meta" "team_members" = true →
     physTableExists s "meta" "tables" = true →
      (initialize_central_database s n1 a1).phys = s.phys) ∧
    initialize_central_database (initialize_central_database s n1 a1) n2 a2
      = initialize_central_database s n1 a1 := by
  refine ⟨init_users_eq s n1 a1, init_rows_eq s n1 a1, ?_, ?_,
    initialize_idempotent_full s n1 a1 n2 a2⟩
  · intro h
    rw [init_schemas_eq]
    exact init_st_schemas_of_exists s h
  · intro h1 h2 h3 h4
    rw [init_phys_eq]
    exact init_st_phys_of_exists s h1 h2 h3 h4

/-- Witness for `initialize_central_database_idempotent`: on an
already-initialized database, a second run creates no schema and no
table. -/
theorem initialize_central_database_idempotent_witness :
    schemaExists (initialize_central_database emptyState 0 "x") "meta" = true ∧
    (initialize_central_database (initialize_central_database emptyState 0 "x") 1 "y").schemas
      = (initialize_central_database emptyState 0 "x").schemas ∧
    (initialize_central_database (initialize_central_database emptyState 0 "x") 1 "y").phys
      = (initialize_central_database emptyState 0 "x").phys :=
  ⟨by decide,
   (initialize_central_database_idempotent
     (initialize_central_database emptyState 0 "x") 1 1 "y" "y").2.2.1 (by decide),
   (initialize_central_database_idempotent
     (initialize_central_database emptyState 0 "x") 1 1 "y" "y").2.2.2.1
     (by decide) (by decide) (by decide) (by decide)⟩

end EZPostgres
